import Mathlib

/-!
Shallow embedding of `src/backend/app.py`: a single Flask route `POST /submit`
that validates an identity-application submission and forwards it to an
external verification provider.  Python values, exceptions and the relevant
library calls (`re.match`, `re.sub`, `datetime.strptime`, `requests.post`,
`request.get_json`, dict operations) are modelled explicitly; the handler
`submit_app` below mirrors the source line by line.
-/

/-- JSON values, as produced by `request.get_json()` and `response.json()`.
Objects keep their key order (Python dicts preserve insertion order). -/
inductive Json where
  | null : Json
  | bool : Bool → Json
  | num : Int → Json
  | str : String → Json
  | arr : List Json → Json
  | obj : List (String × Json) → Json

/-- Python exception kinds that can reach the handler's `try`/`except` chain.
`badRequest` stands for the werkzeug `BadRequest`/`UnsupportedMediaType`
raised by `request.get_json()` on a missing or unparseable body (neither is a
`ValueError`, a `ConnectionError` nor a `Timeout`). -/
inductive PyExc where
  | valueError : PyExc
  | typeError : PyExc
  | keyError : PyExc
  | badRequest : PyExc
  | connectionError : PyExc
  | timeoutError : PyExc
deriving DecidableEq

/-- An HTTP response produced by the handler: status code plus JSON body. -/
structure Resp where
  status : Nat
  body : Json

/-- Calendar date, the `.year`/`.month`/`.day` fields of a Python `datetime`. -/
structure Date where
  year : Nat
  month : Nat
  day : Nat
deriving DecidableEq

/-- Python truthiness of a JSON value (`not data[field]` in the source). -/
def truthy : Json → Bool
  | .null => false
  | .bool b => b
  | .num n => n != 0
  | .str s => s != ""
  | .arr xs => !xs.isEmpty
  | .obj kvs => !kvs.isEmpty

/-- Contiguous-sublist test, Python's substring operator on strings. -/
def pySubstr (needle hay : List Char) : Bool :=
  hay.tails.any (fun t => needle.isPrefixOf t)

/-- Python `field in data`: dict key membership for objects, element
membership for lists, substring test for strings, `TypeError` otherwise. -/
def jsonContains : Json → String → Except PyExc Bool
  | .obj kvs, k => .ok (kvs.lookup k).isSome
  | .arr xs, k => .ok (xs.any fun x => match x with | .str s => s == k | _ => false)
  | .str s, k => .ok (pySubstr k.toList s.toList)
  | _, _ => .error .typeError

/-- Python `data[field]`: dict item lookup (raising `KeyError` when absent),
`TypeError` on non-dict values indexed by a string. -/
def jsonGetItem : Json → String → Except PyExc Json
  | .obj kvs, k =>
      match kvs.lookup k with
      | some v => .ok v
      | none => .error .keyError
  | _, _ => .error .typeError

/-- Python `dict.get(key)`: the value when present, `None` otherwise.  Only
reached on values already known to be dicts. -/
def dictGet : Json → String → Json
  | .obj kvs, k => (kvs.lookup k).getD .null
  | _, _ => .null

/-- Coercion demanded by `re.match`, `re.sub` and `datetime.strptime`, which
raise `TypeError` on non-string arguments. -/
def asString : Json → Except PyExc String
  | .str s => .ok s
  | _ => .error .typeError

/-- Python regex class `\s` restricted to ASCII. -/
def pySpace (c : Char) : Bool :=
  c = ' ' || c = '\t' || c = '\n' || c = '\r' || c = '\x0b' || c = '\x0c'

/-- Python `re.match` of an anchored pattern `^CORE$`: the dollar anchor also
matches just before a single trailing newline, so `CORE` may match either the
whole string or the whole string minus a final newline character. -/
def reMatchDollar (core : List Char → Bool) (s : String) : Bool :=
  core s.toList ||
    (match s.toList.getLast? with
     | some c => c == '\n' && core s.toList.dropLast
     | none => false)

/-- Body of the pattern `\d{n}` (exactly `n` ASCII digits). -/
def digitsN (n : Nat) (cs : List Char) : Bool :=
  cs.length == n && cs.all Char.isDigit

/-- Body of the pattern `[A-Z]{2}` used for the state code. -/
def stateCore (cs : List Char) : Bool :=
  cs.length == 2 && cs.all fun c => 'A' ≤ c && c ≤ 'Z'

/-- Body of the pattern `\d{4}-\d{2}-\d{2}` used to re-check the birth date
inside `validate_format`. -/
def dobCore : List Char → Bool
  | [a, b, c, d, h1, e, f, h2, g, k] =>
      a.isDigit && b.isDigit && c.isDigit && d.isDigit && h1 == '-' &&
      e.isDigit && f.isDigit && h2 == '-' && g.isDigit && k.isDigit
  | _ => false

/-- Body of the email pattern `[^\s@]+@[^\s@]+\.[^\s@]+`: a nonempty local
part without whitespace or at-sign, an at-sign, then a domain part without
whitespace or at-sign containing an interior dot. -/
def emailCore (cs : List Char) : Bool :=
  let a := cs.takeWhile fun c => c != '@'
  match cs.drop a.length with
  | '@' :: r =>
      !a.isEmpty && a.all (fun c => !pySpace c) &&
      r.all (fun c => !pySpace c && c != '@') &&
      ((r.drop 1).dropLast.contains '.')
  | _ => false

/-- Numeric value of an ASCII digit. -/
def digitVal (c : Char) : Nat := c.toNat - 48

/-- One-or-two-digit month of CPython's `%m` directive, whose regex is the
ordered alternation of a two-digit form `1[0-2]|0[1-9]` and a single digit
`[1-9]`; the following literal dash forces the backtracking choice. -/
def parseMonthDash : List Char → Option (Nat × List Char)
  | c1 :: c2 :: rest =>
      (match (if c1 = '1' ∧ '0' ≤ c2 ∧ c2 ≤ '2' then some (10 + digitVal c2)
              else if c1 = '0' ∧ '1' ≤ c2 ∧ c2 ≤ '9' then some (digitVal c2)
              else none), rest with
       | some m, '-' :: rest2 => some (m, rest2)
       | _, _ =>
          if ('1' ≤ c1 ∧ c1 ≤ '9') ∧ c2 = '-' then some (digitVal c1, rest)
          else none)
  | _ => none

/-- One-or-two-digit day of CPython's `%d` directive, the ordered alternation
`3[01]|[12]\d|0[1-9]|[1-9]`; nothing follows it in the pattern, so the first
matching alternative wins. -/
def parseDay : List Char → Option (Nat × List Char)
  | [] => none
  | c1 :: rest1 =>
      match rest1 with
      | c2 :: rest2 =>
          if c1 = '3' ∧ '0' ≤ c2 ∧ c2 ≤ '1' then some (30 + digitVal c2, rest2)
          else if (c1 = '1' ∨ c1 = '2') ∧ c2.isDigit then
            some (10 * digitVal c1 + digitVal c2, rest2)
          else if c1 = '0' ∧ '1' ≤ c2 ∧ c2 ≤ '9' then some (digitVal c2, rest2)
          else if '1' ≤ c1 ∧ c1 ≤ '9' then some (digitVal c1, c2 :: rest2)
          else none
      | [] => if '1' ≤ c1 ∧ c1 ≤ '9' then some (digitVal c1, []) else none

/-- Gregorian leap-year rule used by `datetime`. -/
def isLeapYear (y : Nat) : Bool :=
  y % 4 == 0 && (y % 100 != 0 || y % 400 == 0)

/-- Length of a month, as enforced by the `datetime` constructor. -/
def daysInMonth (y m : Nat) : Nat :=
  if m = 2 then (if isLeapYear y then 29 else 28)
  else if m = 4 ∨ m = 6 ∨ m = 9 ∨ m = 11 then 30
  else 31

/-- CPython `datetime.strptime(s, "%Y-%m-%d")`: `%Y` is exactly four digits,
`%m` and `%d` accept one or two digits, the whole string must be consumed,
and the resulting triple must be a real calendar date; any failure raises
`ValueError`. -/
def strptimeYMD (s : String) : Except PyExc Date :=
  match s.toList with
  | y1 :: y2 :: y3 :: y4 :: '-' :: rest =>
      if y1.isDigit ∧ y2.isDigit ∧ y3.isDigit ∧ y4.isDigit then
        match parseMonthDash rest with
        | some (m, rest2) =>
            match parseDay rest2 with
            | some (d, []) =>
                let y := 1000 * digitVal y1 + 100 * digitVal y2 +
                  10 * digitVal y3 + digitVal y4
                if 1 ≤ y ∧ d ≤ daysInMonth y m then .ok ⟨y, m, d⟩
                else .error .valueError
            | _ => .error .valueError
        | none => .error .valueError
      else .error .valueError
  | _ => .error .valueError

/-- Age computation from line 115 of the source:
`today.year - birth.year - ((today.month, today.day) < (birth.month, birth.day))`,
with the Python tuple comparison being lexicographic and the boolean counting
as 0 or 1. -/
def pyAge (today birth : Date) : Int :=
  (today.year : Int) - (birth.year : Int) -
    (if today.month < birth.month ∨
        (today.month = birth.month ∧ today.day < birth.day) then 1 else 0)

/-- The `FIELD_NAMES` dictionary mapping internal keys to display labels. -/
def FIELD_NAMES : List (String × String) :=
  [("name_first", "First Name"),
   ("name_last", "Last Name"),
   ("email_address", "Email Address"),
   ("phone_number", "Phone Number"),
   ("address_line_1", "Address Line 1"),
   ("address_line_2", "Address Line 2"),
   ("address_city", "City"),
   ("address_state", "State"),
   ("address_postal_code", "Postal Code"),
   ("address_country_code", "Country"),
   ("document_ssn", "Social Security Number"),
   ("birth_date", "Date of Birth")]

/-- Display label of a field: `FIELD_NAMES.get(field, field)`. -/
def fieldLabel (f : String) : String := (FIELD_NAMES.lookup f).getD f

/-- The `required_fields` list from lines 88-91 of the source, in order. -/
def requiredFields : List String :=
  ["name_first", "name_last", "email_address", "phone_number",
   "address_line_1", "address_city", "address_state",
   "address_postal_code", "address_country_code",
   "document_ssn", "birth_date"]

/-- Shorthand for `jsonify({"error": msg})`. -/
def errObj (msg : String) : Json := .obj [("error", .str msg)]

/-- The message string `Country must be 'US'` (single quotes included). -/
def countryMsg : String := "Country must be " ++ String.mk ['\'', 'U', 'S', '\'']

/-- Message for a rejected SSN. -/
def ssnMsg : String := "SSN must be exactly 9 digits with no dashes"

/-- Message for a birth date failing the strict shape re-check. -/
def dobMsg : String := "Date of Birth must be in YYYY-MM-DD format"

/-- Message for a rejected state code. -/
def stateMsg : String := "State must be a 2-letter code (e.g., NY, CA)"

/-- Python equality test `v == some-string`, false (without raising) on
values of any other type; the source compares `data[...] != 'US'`. -/
def jsonEqStr (v : Json) (s : String) : Bool :=
  match v with
  | .str t => t == s
  | _ => false

/-- One membership-guarded regex block of `validate_format`:
`if field in data: if not re.match(pattern, data[field]): return False, msg`,
followed by the continuation `k` when the block falls through. -/
def vfBlockStr (data : Json) (field : String) (core : List Char → Bool)
    (msg : String) (k : Except PyExc (Bool × Option String)) :
    Except PyExc (Bool × Option String) := do
  let c ← jsonContains data field
  if c then
    let v ← jsonGetItem data field
    let s ← asString v
    if !(reMatchDollar core s) then
      return (false, some msg)
  k

/-- The final block of `validate_format` (lines 75-78): the country equality
comparison (Python `!=` never raises) and the success return. -/
def vfCountry (data : Json) : Except PyExc (Bool × Option String) := do
  let c ← jsonContains data "address_country_code"
  if c then
    let v ← jsonGetItem data "address_country_code"
    if !(jsonEqStr v "US") then
      return (false, some countryMsg)
  return (true, none)

/-- The function `validate_format(data)` (lines 62-78): SSN, birth-date
shape, state and country checks in that order, each guarded by membership,
returning `(False, message)` on the first failure and `(True, None)` at the
end. -/
def validate_format (data : Json) : Except PyExc (Bool × Option String) :=
  vfBlockStr data "document_ssn" (digitsN 9) ssnMsg
    (vfBlockStr data "birth_date" dobCore dobMsg
      (vfBlockStr data "address_state" stateCore stateMsg
        (vfCountry data)))

/-- The presence loop of lines 93-97: for each required field in order,
`field not in data or not data[field]` yields the 400 missing-field
response. -/
def checkPresenceAux (data : Json) : List String → Except PyExc (Option Resp)
  | [] => .ok none
  | f :: rest => do
      let c ← jsonContains data f
      if !c then
        return some ⟨400, errObj ("Missing required field: " ++ fieldLabel f)⟩
      let v ← jsonGetItem data f
      if !(truthy v) then
        return some ⟨400, errObj ("Missing required field: " ++ fieldLabel f)⟩
      checkPresenceAux data rest

/-- The email check of lines 99-103. -/
def checkEmail (data : Json) : Except PyExc (Option Resp) := do
  let c ← jsonContains data "email_address"
  if c then
    let v ← jsonGetItem data "email_address"
    let s ← asString v
    if !(reMatchDollar emailCore s) then
      return some ⟨400, errObj "Invalid email format"⟩
  return none

/-- The phone check of lines 105-109: strip all non-digits, require exactly
ten remaining. -/
def checkPhone (data : Json) : Except PyExc (Option Resp) := do
  let c ← jsonContains data "phone_number"
  if c then
    let v ← jsonGetItem data "phone_number"
    let s ← asString v
    if (s.toList.filter Char.isDigit).length ≠ 10 then
      return some ⟨400, errObj "Phone number must be 10 digits"⟩
  return none

/-- The birth-date check of lines 111-118: `strptime` (raising `ValueError`
on parse failure) followed by the age test. -/
def checkBirth (today : Date) (data : Json) : Except PyExc (Option Resp) := do
  let c ← jsonContains data "birth_date"
  if c then
    let v ← jsonGetItem data "birth_date"
    let s ← asString v
    let birth ← strptimeYMD s
    if pyAge today birth < 18 then
      return some ⟨400, errObj "Must be at least 18 years old"⟩
  return none

/-- The postal-code check of lines 120-123. -/
def checkPostal (data : Json) : Except PyExc (Option Resp) := do
  let c ← jsonContains data "address_postal_code"
  if c then
    let v ← jsonGetItem data "address_postal_code"
    let s ← asString v
    if !(reMatchDollar (digitsN 5) s) then
      return some ⟨400, errObj "Postal code must be 5 digits"⟩
  return none

/-- Lines 125-128: run `validate_format` and turn a failure into a 400. -/
def checkFormat (data : Json) : Except PyExc (Option Resp) := do
  let r ← validate_format data
  match r with
  | (true, _) => return none
  | (false, msg) =>
      return some ⟨400, .obj [("error", match msg with
        | some m => Json.str m
        | none => Json.null)]⟩

/-- Sequencing of two early-exit validation stages: a response produced by
the first stage short-circuits the second, mirroring the source's early
`return` statements. -/
def seqCheck (x y : Except PyExc (Option Resp)) : Except PyExc (Option Resp) := do
  match ← x with
  | some r => return some r
  | none => y

/-- The whole validation pipeline of lines 93-128 in source order. -/
def validateAll (today : Date) (data : Json) : Except PyExc (Option Resp) :=
  seqCheck (checkPresenceAux data requiredFields)
    (seqCheck (checkEmail data)
      (seqCheck (checkPhone data)
        (seqCheck (checkBirth today data)
          (seqCheck (checkPostal data) (checkFormat data)))))

/-- Result of the single `requests.post` call to the provider: an HTTP
response whose body may or may not be valid JSON, a connection failure, or a
timeout. -/
inductive ProviderResult where
  | response : Nat → Option Json → ProviderResult
  | connectionError : ProviderResult
  | timeoutError : ProviderResult

/-- The provider is modelled as a script of call results consumed in order;
the handler performs exactly one `requests.post`, which takes the head.  An
exhausted script (never reached in any theorem below) counts as a connection
failure. -/
def callProvider : List ProviderResult →
    Except PyExc ((Nat × Option Json) × List ProviderResult)
  | [] => .error .connectionError
  | .response s b :: rest => .ok ((s, b), rest)
  | .connectionError :: _ => .error .connectionError
  | .timeoutError :: _ => .error .timeoutError

/-- Lines 130-150: call the provider, surface any non-201 status as an
"Alloy API error" with the original code, otherwise decode the body
(`response.json()` raises a `ValueError` subclass on undecodable JSON), read
`["summary"]["outcome"]`, and build the 200 response whose
`evaluation_token` comes from `dict.get` (so a missing token becomes JSON
null). -/
def providerStage (provs : List ProviderResult) : Except PyExc Resp := do
  let ((status, jbody), _rest) ← callProvider provs
  if status ≠ 201 then
    return ⟨status, errObj "Alloy API error"⟩
  let alloy ← (match jbody with
    | some j => Except.ok j
    | none => Except.error PyExc.valueError)
  let summary ← jsonGetItem alloy "summary"
  let outcome ← jsonGetItem summary "outcome"
  return ⟨200, .obj [("outcome", outcome),
    ("evaluation_token", dictGet alloy "evaluation_token")]⟩

/-- Lines 84-150, the body of the `try` block after `get_json` succeeded. -/
def submitBody (today : Date) (data : Json) (provs : List ProviderResult) :
    Except PyExc Resp := do
  match ← validateAll today data with
  | some r => return r
  | none => providerStage provs

/-- The inbound request body: either unparseable/absent (making
`request.get_json()` raise) or a parsed JSON value. -/
inductive ReqBody where
  | malformed : ReqBody
  | parsed : Json → ReqBody

/-- Line 85: `request.get_json()`. -/
def getJsonBody : ReqBody → Except PyExc Json
  | .malformed => .error .badRequest
  | .parsed j => .ok j

/-- The `except` chain of lines 152-166: `ValueError` maps to a 400,
`ConnectionError` to 503, `Timeout` to 504, anything else to the generic
500. -/
def handleExc : PyExc → Resp
  | .valueError => ⟨400, errObj "Invalid data format"⟩
  | .connectionError => ⟨503, errObj "Unable to connect to verification service"⟩
  | .timeoutError => ⟨504, errObj "Request timed out. Please try again."⟩
  | _ => ⟨500, errObj "An unexpected error occurred"⟩

/-- The whole `submit_app` view function (lines 83-166): parse the body, run
the pipeline, and translate any raised exception via the `except` chain. -/
def submit_app (today : Date) (body : ReqBody) (provs : List ProviderResult) :
    Resp :=
  match (do
    let data ← getJsonBody body
    submitBody today data provs : Except PyExc Resp) with
  | .ok r => r
  | .error e => handleExc e

/-- Provider tail of the handler once validation passed: the provider stage
with raised exceptions routed through the `except` chain. -/
def runProvider (provs : List ProviderResult) : Resp :=
  match providerStage provs with
  | .ok r => r
  | .error e => handleExc e

/-- A fully valid submission used as concrete input in witnesses. -/
def kvsOK : List (String × Json) :=
  [("name_first", .str "Jane"),
   ("name_last", .str "Doe"),
   ("email_address", .str "jane@example.com"),
   ("phone_number", .str "(555) 123-4567"),
   ("address_line_1", .str "1 Main St"),
   ("address_city", .str "New York"),
   ("address_state", .str "NY"),
   ("address_postal_code", .str "10001"),
   ("address_country_code", .str "US"),
   ("document_ssn", .str "123456789"),
   ("birth_date", .str "1990-01-15")]

/-- The valid submission as a JSON object. -/
def dataOK : Json := .obj kvsOK

/-- A fixed current date used in concrete evaluations. -/
def today0 : Date := ⟨2026, 10, 12⟩

/-- A provider 201 response carrying both an outcome and a token. -/
def provOK : ProviderResult := .response 201 (some (.obj
  [("summary", .obj [("outcome", .str "Approved")]),
   ("evaluation_token", .str "abc123")]))

/-- Presence predicate of the loop body: the field is absent or its value is
falsy. -/
def presMiss (kvs : List (String × Json)) (f : String) : Bool :=
  match kvs.lookup f with
  | none => true
  | some v => !truthy v

/-- Missing-field response for a field. -/
def missingResp (f : String) : Resp :=
  ⟨400, errObj ("Missing required field: " ++ fieldLabel f)⟩

/-- Submissions whose values are all strings, the shape described by the
spec's data model (a mapping from field name to string value). -/
def stringValued (kvs : List (String × Json)) : Bool :=
  kvs.all fun p => match p.2 with | .str _ => true | _ => false

/-- First required field (in `required_fields` order) that is absent or
mapped to the empty string — the claim-side reading of "lacks a field or
maps it to an empty value". -/
def firstMissingOrEmpty (kvs : List (String × Json)) : Option String :=
  requiredFields.find? fun f =>
    match kvs.lookup f with
    | none => true
    | some (Json.str s) => s == ""
    | some _ => false

/-- String value of a field of a string-valued submission (defaulting to the
empty string, never relevant once presence has passed). -/
def strField (kvs : List (String × Json)) (f : String) : String :=
  match kvs.lookup f with
  | some (Json.str s) => s
  | _ => ""

/-- Validation cascade in the order asserted by the spec, amended with the
strict birth-date shape re-check sitting inside `validate_format` between
the SSN and state checks: presence, email, phone, birth date (parse then
age), postal code, SSN, birth-date shape, state, country, then the provider
call.  Stated over string-valued submissions and compared with
`submit_app`. -/
def specCascade (today : Date) (kvs : List (String × Json))
    (provs : List ProviderResult) : Resp :=
  match firstMissingOrEmpty kvs with
  | some f => ⟨400, errObj ("Missing required field: " ++ fieldLabel f)⟩
  | none =>
      if !(reMatchDollar emailCore (strField kvs "email_address")) then
        ⟨400, errObj "Invalid email format"⟩
      else if ((strField kvs "phone_number").toList.filter Char.isDigit).length
          ≠ 10 then
        ⟨400, errObj "Phone number must be 10 digits"⟩
      else
        match strptimeYMD (strField kvs "birth_date") with
        | .error _ => ⟨400, errObj "Invalid data format"⟩
        | .ok birth =>
            if pyAge today birth < 18 then
              ⟨400, errObj "Must be at least 18 years old"⟩
            else if !(reMatchDollar (digitsN 5)
                (strField kvs "address_postal_code")) then
              ⟨400, errObj "Postal code must be 5 digits"⟩
            else if !(reMatchDollar (digitsN 9)
                (strField kvs "document_ssn")) then
              ⟨400, errObj ssnMsg⟩
            else if !(reMatchDollar dobCore (strField kvs "birth_date")) then
              ⟨400, errObj dobMsg⟩
            else if !(reMatchDollar stateCore
                (strField kvs "address_state")) then
              ⟨400, errObj stateMsg⟩
            else if !(strField kvs "address_country_code" == "US") then
              ⟨400, errObj countryMsg⟩
            else runProvider provs

/-- Modelled from the spec: the flask_limiter response for a rejected
request; the spec fixes only the 429 status ("response body per
rate-limiter defaults"), so the body is left as JSON null. -/
def rateLimitResp : Resp := ⟨429, Json.null⟩

/-- Modelled from the spec: admission decision of the rate limiter
configured in `src/backend/app.py` (`5 per minute` keyed by client network
address on the `/submit` route, plus the global default ceiling of `100 per
hour` across all clients).  The state is the list of admitted requests as
(address, time-in-seconds) pairs; a request is admitted when fewer than five
requests from the same address were admitted in the past minute and fewer
than one hundred in the past hour overall. -/
def rateAdmit (st : List (String × Nat)) (addr : String) (t : Nat) : Bool :=
  decide ((st.countP fun e => e.1 == addr && decide (t < e.2 + 60)) < 5) &&
  decide ((st.countP fun e => decide (t < e.2 + 3600)) < 100)

/-- Modelled from the spec: the decorated `/submit` route; the limiter runs
before the handler body, so a rejected request returns 429 without touching
the request body or the provider. -/
def rateLimitedRoute (today : Date) (st : List (String × Nat)) (addr : String)
    (t : Nat) (body : ReqBody) (provs : List ProviderResult) :
    Resp × List (String × Nat) :=
  if rateAdmit st addr t then (submit_app today body provs, (addr, t) :: st)
  else (rateLimitResp, st)

/-- Run a sequence of requests (address, time, body, provider script)
through the rate-limited route, threading the limiter state. -/
def processReqs (today : Date) (st : List (String × Nat)) :
    List (String × Nat × ReqBody × List ProviderResult) → List Resp
  | [] => []
  | (addr, t, body, provs) :: rest =>
      match rateLimitedRoute today st addr t body provs with
      | (r, st2) => r :: processReqs today st2 rest

/-- The valid submission with the phone number replaced by a short one. -/
def kvsShortPhone : List (String × Json) :=
  [("name_first", .str "Jane"),
   ("name_last", .str "Doe"),
   ("email_address", .str "jane@example.com"),
   ("phone_number", .str "555-123"),
   ("address_line_1", .str "1 Main St"),
   ("address_city", .str "New York"),
   ("address_state", .str "NY"),
   ("address_postal_code", .str "10001"),
   ("address_country_code", .str "US"),
   ("document_ssn", .str "123456789"),
   ("birth_date", .str "1990-01-15")]

/-- The valid submission with the email address removed. -/
def kvsNoEmail : List (String × Json) :=
  [("name_first", .str "Jane"),
   ("name_last", .str "Doe"),
   ("phone_number", .str "(555) 123-4567"),
   ("address_line_1", .str "1 Main St"),
   ("address_city", .str "New York"),
   ("address_state", .str "NY"),
   ("address_postal_code", .str "10001"),
   ("address_country_code", .str "US"),
   ("document_ssn", .str "123456789"),
   ("birth_date", .str "1990-01-15")]

/-- The valid submission with an SSN of nine digits plus a trailing
newline. -/
def dataSsnNewline : Json := .obj
  [("name_first", .str "Jane"),
   ("name_last", .str "Doe"),
   ("email_address", .str "jane@example.com"),
   ("phone_number", .str "(555) 123-4567"),
   ("address_line_1", .str "1 Main St"),
   ("address_city", .str "New York"),
   ("address_state", .str "NY"),
   ("address_postal_code", .str "10001"),
   ("address_country_code", .str "US"),
   ("document_ssn", .str "123456789\n"),
   ("birth_date", .str "1990-01-15")]

/-- The valid submission with a dashed SSN. -/
def kvsSsnDashes : List (String × Json) :=
  [("name_first", .str "Jane"),
   ("name_last", .str "Doe"),
   ("email_address", .str "jane@example.com"),
   ("phone_number", .str "(555) 123-4567"),
   ("address_line_1", .str "1 Main St"),
   ("address_city", .str "New York"),
   ("address_state", .str "NY"),
   ("address_postal_code", .str "10001"),
   ("address_country_code", .str "US"),
   ("document_ssn", .str "123-45-6789"),
   ("birth_date", .str "1990-01-15")]

/-- The valid submission with an underage birth date. -/
def kvsYoung : List (String × Json) :=
  [("name_first", .str "Jane"),
   ("name_last", .str "Doe"),
   ("email_address", .str "jane@example.com"),
   ("phone_number", .str "(555) 123-4567"),
   ("address_line_1", .str "1 Main St"),
   ("address_city", .str "New York"),
   ("address_state", .str "NY"),
   ("address_postal_code", .str "10001"),
   ("address_country_code", .str "US"),
   ("document_ssn", .str "123456789"),
   ("birth_date", .str "2010-01-15")]

/-- A submission whose birth date parses under `strptime` but fails the
strict `YYYY-MM-DD` shape, and whose state code is lowercase: two rules are
violated at once. -/
def kvsOrder : List (String × Json) :=
  [("name_first", .str "Jane"),
   ("name_last", .str "Doe"),
   ("email_address", .str "jane@example.com"),
   ("phone_number", .str "(555) 123-4567"),
   ("address_line_1", .str "1 Main St"),
   ("address_city", .str "New York"),
   ("address_state", .str "ny"),
   ("address_postal_code", .str "10001"),
   ("address_country_code", .str "US"),
   ("document_ssn", .str "123456789"),
   ("birth_date", .str "1990-1-05")]

theorem jsonContains_null (k : String) :
    jsonContains .null k = .error .typeError := rfl

theorem jsonContains_bool (b : Bool) (k : String) :
    jsonContains (.bool b) k = .error .typeError := rfl

theorem jsonContains_num (n : Int) (k : String) :
    jsonContains (.num n) k = .error .typeError := rfl

theorem jsonGetItem_null (k : String) :
    jsonGetItem .null k = .error .typeError := rfl

theorem jsonGetItem_bool (b : Bool) (k : String) :
    jsonGetItem (.bool b) k = .error .typeError := rfl

theorem jsonGetItem_num (n : Int) (k : String) :
    jsonGetItem (.num n) k = .error .typeError := rfl

theorem jsonGetItem_str (s k : String) :
    jsonGetItem (.str s) k = .error .typeError := rfl

theorem jsonGetItem_arr (xs : List Json) (k : String) :
    jsonGetItem (.arr xs) k = .error .typeError := rfl

theorem asString_null : asString .null = .error .typeError := rfl

theorem asString_bool (b : Bool) : asString (.bool b) = .error .typeError := rfl

theorem asString_num (n : Int) : asString (.num n) = .error .typeError := rfl

theorem asString_arr (xs : List Json) :
    asString (.arr xs) = .error .typeError := rfl

theorem asString_obj (kvs : List (String × Json)) :
    asString (.obj kvs) = .error .typeError := rfl

theorem exc_pure {α : Type} (a : α) : (pure a : Except PyExc α) = .ok a := rfl

theorem exc_bind_ok {α β : Type} (a : α) (f : α → Except PyExc β) :
    (Except.ok a >>= f) = f a := rfl

theorem exc_bind_err {α β : Type} (e : PyExc) (f : α → Except PyExc β) :
    ((Except.error e : Except PyExc α) >>= f) = .error e := rfl

theorem seqCheck_ok_some {x y : Except PyExc (Option Resp)} {r : Resp}
    (h : x = .ok (some r)) : seqCheck x y = .ok (some r) := by
  unfold seqCheck; rw [h]; rfl

theorem seqCheck_ok_none {x y : Except PyExc (Option Resp)}
    (h : x = .ok none) : seqCheck x y = y := by
  unfold seqCheck; rw [h]; rfl

theorem seqCheck_err {x y : Except PyExc (Option Resp)} {e : PyExc}
    (h : x = .error e) : seqCheck x y = .error e := by
  unfold seqCheck; rw [h]; rfl

theorem submitBody_of_some {today : Date} {data : Json}
    {provs : List ProviderResult} {r : Resp}
    (h : validateAll today data = .ok (some r)) :
    submitBody today data provs = .ok r := by
  unfold submitBody; rw [h]; rfl

theorem submitBody_of_none {today : Date} {data : Json}
    {provs : List ProviderResult}
    (h : validateAll today data = .ok none) :
    submitBody today data provs = providerStage provs := by
  unfold submitBody; rw [h]; rfl

theorem submitBody_of_err {today : Date} {data : Json}
    {provs : List ProviderResult} {e : PyExc}
    (h : validateAll today data = .error e) :
    submitBody today data provs = .error e := by
  unfold submitBody; rw [h]; rfl

theorem submit_app_parsed (today : Date) (data : Json)
    (provs : List ProviderResult) :
    submit_app today (.parsed data) provs =
      (match submitBody today data provs with
       | .ok r => r
       | .error e => handleExc e) := rfl

theorem submit_of_val_some {today : Date} {data : Json}
    {provs : List ProviderResult} {r : Resp}
    (h : validateAll today data = .ok (some r)) :
    submit_app today (.parsed data) provs = r := by
  rw [submit_app_parsed, submitBody_of_some h]

theorem submit_of_val_none {today : Date} {data : Json}
    {provs : List ProviderResult}
    (h : validateAll today data = .ok none) :
    submit_app today (.parsed data) provs = runProvider provs := by
  rw [submit_app_parsed, submitBody_of_none h]; rfl

theorem submit_of_val_err {today : Date} {data : Json}
    {provs : List ProviderResult} {e : PyExc}
    (h : validateAll today data = .error e) :
    submit_app today (.parsed data) provs = handleExc e := by
  rw [submit_app_parsed, submitBody_of_err h]

theorem checkPresenceAux_obj (kvs : List (String × Json)) :
    ∀ fields : List String,
      checkPresenceAux (.obj kvs) fields =
        .ok ((fields.find? (presMiss kvs)).map missingResp)
  | [] => rfl
  | f :: rest => by
      cases h : kvs.lookup f with
      | none =>
          have hp : presMiss kvs f = true := by simp [presMiss, h]
          rw [List.find?_cons_of_pos _ hp]
          simp [checkPresenceAux, jsonContains, jsonGetItem, h, missingResp,
            exc_pure, exc_bind_ok, exc_bind_err]
      | some v =>
          cases hv : truthy v with
          | false =>
              have hp : presMiss kvs f = true := by simp [presMiss, h, hv]
              rw [List.find?_cons_of_pos _ hp]
              simp [checkPresenceAux, jsonContains, jsonGetItem, h, hv,
                missingResp, exc_pure, exc_bind_ok, exc_bind_err]
          | true =>
              have hp : ¬ presMiss kvs f = true := by simp [presMiss, h, hv]
              rw [List.find?_cons_of_neg _ hp]
              simp [checkPresenceAux, jsonContains, jsonGetItem, h, hv,
                exc_pure, exc_bind_ok, exc_bind_err]
              exact checkPresenceAux_obj kvs rest

theorem checkEmail_obj {kvs : List (String × Json)} {s : String}
    (h : kvs.lookup "email_address" = some (.str s)) :
    checkEmail (.obj kvs) =
      .ok (if reMatchDollar emailCore s then none
           else some ⟨400, errObj "Invalid email format"⟩) := by
  cases hb : reMatchDollar emailCore s <;>
    simp [checkEmail, jsonContains, jsonGetItem, asString, h, hb,
      exc_pure, exc_bind_ok, exc_bind_err]

theorem checkPhone_obj {kvs : List (String × Json)} {s : String}
    (h : kvs.lookup "phone_number" = some (.str s)) :
    checkPhone (.obj kvs) =
      .ok (if (s.toList.filter Char.isDigit).length = 10 then none
           else some ⟨400, errObj "Phone number must be 10 digits"⟩) := by
  simp [checkPhone, jsonContains, jsonGetItem, asString, h,
    exc_pure, exc_bind_ok, exc_bind_err]
  split <;> rfl

theorem checkBirth_obj {today : Date} {kvs : List (String × Json)} {s : String}
    (h : kvs.lookup "birth_date" = some (.str s)) :
    checkBirth today (.obj kvs) =
      (match strptimeYMD s with
       | .error e => .error e
       | .ok birth =>
           .ok (if pyAge today birth < 18 then
                  some ⟨400, errObj "Must be at least 18 years old"⟩
                else none)) := by
  cases hs : strptimeYMD s with
  | error e =>
      simp [checkBirth, jsonContains, jsonGetItem, asString, h, hs,
        exc_pure, exc_bind_ok, exc_bind_err]
  | ok birth =>
      by_cases ha : pyAge today birth < 18 <;>
        simp [checkBirth, jsonContains, jsonGetItem, asString, h, hs, ha,
          exc_pure, exc_bind_ok, exc_bind_err]

theorem checkPostal_obj {kvs : List (String × Json)} {s : String}
    (h : kvs.lookup "address_postal_code" = some (.str s)) :
    checkPostal (.obj kvs) =
      .ok (if reMatchDollar (digitsN 5) s then none
           else some ⟨400, errObj "Postal code must be 5 digits"⟩) := by
  cases hb : reMatchDollar (digitsN 5) s <;>
    simp [checkPostal, jsonContains, jsonGetItem, asString, h, hb,
      exc_pure, exc_bind_ok, exc_bind_err]

theorem validate_format_obj {kvs : List (String × Json)}
    {ssn bd st cc : String}
    (h1 : kvs.lookup "document_ssn" = some (.str ssn))
    (h2 : kvs.lookup "birth_date" = some (.str bd))
    (h3 : kvs.lookup "address_state" = some (.str st))
    (h4 : kvs.lookup "address_country_code" = some (.str cc)) :
    validate_format (.obj kvs) =
      .ok (if !(reMatchDollar (digitsN 9) ssn) then (false, some ssnMsg)
           else if !(reMatchDollar dobCore bd) then (false, some dobMsg)
           else if !(reMatchDollar stateCore st) then (false, some stateMsg)
           else if !(cc == "US") then (false, some countryMsg)
           else (true, none)) := by
  cases b1 : reMatchDollar (digitsN 9) ssn <;>
    cases b2 : reMatchDollar dobCore bd <;>
      cases b3 : reMatchDollar stateCore st <;>
        cases b4 : cc == "US" <;>
          simp [validate_format, vfBlockStr, vfCountry, jsonContains,
            jsonGetItem, asString, jsonEqStr, h1, h2, h3, h4, b1, b2, b3, b4,
            exc_pure, exc_bind_ok, exc_bind_err]

theorem checkFormat_obj {kvs : List (String × Json)}
    {ssn bd st cc : String}
    (h1 : kvs.lookup "document_ssn" = some (.str ssn))
    (h2 : kvs.lookup "birth_date" = some (.str bd))
    (h3 : kvs.lookup "address_state" = some (.str st))
    (h4 : kvs.lookup "address_country_code" = some (.str cc)) :
    checkFormat (.obj kvs) =
      .ok (if !(reMatchDollar (digitsN 9) ssn) then some ⟨400, errObj ssnMsg⟩
           else if !(reMatchDollar dobCore bd) then some ⟨400, errObj dobMsg⟩
           else if !(reMatchDollar stateCore st) then some ⟨400, errObj stateMsg⟩
           else if !(cc == "US") then some ⟨400, errObj countryMsg⟩
           else none) := by
  cases b1 : reMatchDollar (digitsN 9) ssn <;>
    cases b2 : reMatchDollar dobCore bd <;>
      cases b3 : reMatchDollar stateCore st <;>
        cases b4 : cc == "US" <;>
          simp [checkFormat, validate_format_obj h1 h2 h3 h4, b1, b2, b3, b4,
            errObj, exc_pure, exc_bind_ok, exc_bind_err]

theorem handleExc_shape (e : PyExc) :
    handleExc e = ⟨400, errObj "Invalid data format"⟩ ∨
    handleExc e = ⟨503, errObj "Unable to connect to verification service"⟩ ∨
    handleExc e = ⟨504, errObj "Request timed out. Please try again."⟩ ∨
    handleExc e = ⟨500, errObj "An unexpected error occurred"⟩ := by
  cases e <;> simp [handleExc]

theorem runProvider_shape (provs : List ProviderResult) :
    (∃ s, runProvider provs = ⟨s, errObj "Alloy API error"⟩) ∨
    (∃ o t, runProvider provs =
      ⟨200, .obj [("outcome", o), ("evaluation_token", t)]⟩) ∨
    (∃ e, runProvider provs = handleExc e) := by
  match provs with
  | [] => exact Or.inr (Or.inr ⟨.connectionError, rfl⟩)
  | .connectionError :: rest => exact Or.inr (Or.inr ⟨.connectionError, rfl⟩)
  | .timeoutError :: rest => exact Or.inr (Or.inr ⟨.timeoutError, rfl⟩)
  | .response s b :: rest =>
      by_cases hs : s = 201
      · subst hs
        cases b with
        | none => exact Or.inr (Or.inr ⟨.valueError, rfl⟩)
        | some j =>
            cases hsum : jsonGetItem j "summary" with
            | error e =>
                refine Or.inr (Or.inr ⟨e, ?_⟩)
                simp [runProvider, providerStage, callProvider, hsum,
                  exc_pure, exc_bind_ok, exc_bind_err]
            | ok sm =>
                cases ho : jsonGetItem sm "outcome" with
                | error e =>
                    refine Or.inr (Or.inr ⟨e, ?_⟩)
                    simp [runProvider, providerStage, callProvider, hsum, ho,
                      exc_pure, exc_bind_ok, exc_bind_err]
                | ok o =>
                    refine Or.inr (Or.inl ⟨o, dictGet j "evaluation_token", ?_⟩)
                    simp [runProvider, providerStage, callProvider, hsum, ho,
                      exc_pure, exc_bind_ok, exc_bind_err]
      · refine Or.inl ⟨s, ?_⟩
        simp [runProvider, providerStage, callProvider, hs,
          exc_pure, exc_bind_ok, exc_bind_err]

theorem checkBirth_some {today : Date} {data : Json} {r : Resp}
    (h : checkBirth today data = .ok (some r)) :
    r = ⟨400, errObj "Must be at least 18 years old"⟩ := by
  cases data
  case obj kvs =>
    cases hL : kvs.lookup "birth_date" with
    | none =>
        simp [checkBirth, jsonContains, jsonGetItem, hL,
          exc_pure, exc_bind_ok, exc_bind_err] at h
    | some v =>
        cases v
        case str s =>
          cases hs : strptimeYMD s with
          | error e =>
              simp [checkBirth, jsonContains, jsonGetItem, asString, hL, hs,
                exc_pure, exc_bind_ok, exc_bind_err] at h
          | ok birth =>
              by_cases ha : pyAge today birth < 18 <;>
                simp [checkBirth, jsonContains, jsonGetItem, asString, hL, hs,
                  ha, exc_pure, exc_bind_ok, exc_bind_err] at h
              exact h.symm
        all_goals
          simp [checkBirth, jsonContains, jsonGetItem, hL, asString_null,
            asString_bool, asString_num, asString_arr, asString_obj,
            exc_pure, exc_bind_ok, exc_bind_err] at h
  case null => simp [checkBirth, jsonContains_null, exc_bind_err] at h
  case bool b => simp [checkBirth, jsonContains_bool, exc_bind_err] at h
  case num n => simp [checkBirth, jsonContains_num, exc_bind_err] at h
  case str sv =>
    simp only [checkBirth, jsonContains, jsonGetItem_str,
      exc_pure, exc_bind_ok, exc_bind_err] at h
    split at h <;> simp at h
  case arr xs =>
    simp only [checkBirth, jsonContains, jsonGetItem_arr,
      exc_pure, exc_bind_ok, exc_bind_err] at h
    split at h <;> simp at h

theorem checkPostal_some {data : Json} {r : Resp}
    (h : checkPostal data = .ok (some r)) :
    r = ⟨400, errObj "Postal code must be 5 digits"⟩ := by
  cases data
  case obj kvs =>
    cases hL : kvs.lookup "address_postal_code" with
    | none =>
        simp [checkPostal, jsonContains, jsonGetItem, hL,
          exc_pure, exc_bind_ok, exc_bind_err] at h
    | some v =>
        cases v
        case str s =>
          cases hm : reMatchDollar (digitsN 5) s <;>
            simp [checkPostal, jsonContains, jsonGetItem, asString, hL, hm,
              exc_pure, exc_bind_ok, exc_bind_err] at h
          exact h.symm
        all_goals
          simp [checkPostal, jsonContains, jsonGetItem, hL, asString_null,
            asString_bool, asString_num, asString_arr, asString_obj,
            exc_pure, exc_bind_ok, exc_bind_err] at h
  case null => simp [checkPostal, jsonContains_null, exc_bind_err] at h
  case bool b => simp [checkPostal, jsonContains_bool, exc_bind_err] at h
  case num n => simp [checkPostal, jsonContains_num, exc_bind_err] at h
  case str sv =>
    simp only [checkPostal, jsonContains, jsonGetItem_str,
      exc_pure, exc_bind_ok, exc_bind_err] at h
    split at h <;> simp at h
  case arr xs =>
    simp only [checkPostal, jsonContains, jsonGetItem_arr,
      exc_pure, exc_bind_ok, exc_bind_err] at h
    split at h <;> simp at h

theorem vfBlockStr_cases (data : Json) (field : String)
    (core : List Char → Bool) (msg : String)
    (k : Except PyExc (Bool × Option String)) :
    vfBlockStr data field core msg k = k ∨
    vfBlockStr data field core msg k = .ok (false, some msg) ∨
    vfBlockStr data field core msg k = .error .typeError := by
  cases data
  case obj kvs =>
    cases hL : kvs.lookup field with
    | none =>
        refine Or.inl ?_
        simp [vfBlockStr, jsonContains, jsonGetItem, hL,
          exc_pure, exc_bind_ok, exc_bind_err]
    | some v =>
        cases v
        case str s =>
          cases hm : reMatchDollar core s
          · refine Or.inr (Or.inl ?_)
            simp [vfBlockStr, jsonContains, jsonGetItem, asString, hL, hm,
              exc_pure, exc_bind_ok, exc_bind_err]
          · refine Or.inl ?_
            simp [vfBlockStr, jsonContains, jsonGetItem, asString, hL, hm,
              exc_pure, exc_bind_ok, exc_bind_err]
        all_goals
          refine Or.inr (Or.inr ?_)
          simp [vfBlockStr, jsonContains, jsonGetItem, hL, asString_null,
            asString_bool, asString_num, asString_arr, asString_obj,
            exc_pure, exc_bind_ok, exc_bind_err]
  case null =>
    exact Or.inr (Or.inr (by simp [vfBlockStr, jsonContains_null, exc_bind_err]))
  case bool b =>
    exact Or.inr (Or.inr (by simp [vfBlockStr, jsonContains_bool, exc_bind_err]))
  case num n =>
    exact Or.inr (Or.inr (by simp [vfBlockStr, jsonContains_num, exc_bind_err]))
  case str sv =>
    simp only [vfBlockStr, jsonContains, jsonGetItem_str,
      exc_pure, exc_bind_ok, exc_bind_err]
    split
    · exact Or.inr (Or.inr rfl)
    · exact Or.inl rfl
  case arr xs =>
    simp only [vfBlockStr, jsonContains, jsonGetItem_arr,
      exc_pure, exc_bind_ok, exc_bind_err]
    split
    · exact Or.inr (Or.inr rfl)
    · exact Or.inl rfl

theorem vfCountry_cases (data : Json) :
    vfCountry data = .ok (true, none) ∨
    vfCountry data = .ok (false, some countryMsg) ∨
    vfCountry data = .error .typeError := by
  cases data
  case obj kvs =>
    cases hL : kvs.lookup "address_country_code" with
    | none =>
        refine Or.inl ?_
        simp [vfCountry, jsonContains, jsonGetItem, hL,
          exc_pure, exc_bind_ok, exc_bind_err]
    | some v =>
        cases he : jsonEqStr v "US"
        · refine Or.inr (Or.inl ?_)
          simp [vfCountry, jsonContains, jsonGetItem, hL, he,
            exc_pure, exc_bind_ok, exc_bind_err]
        · refine Or.inl ?_
          simp [vfCountry, jsonContains, jsonGetItem, hL, he,
            exc_pure, exc_bind_ok, exc_bind_err]
  case null =>
    exact Or.inr (Or.inr (by simp [vfCountry, jsonContains_null, exc_bind_err]))
  case bool b =>
    exact Or.inr (Or.inr (by simp [vfCountry, jsonContains_bool, exc_bind_err]))
  case num n =>
    exact Or.inr (Or.inr (by simp [vfCountry, jsonContains_num, exc_bind_err]))
  case str sv =>
    simp only [vfCountry, jsonContains, jsonGetItem_str,
      exc_pure, exc_bind_ok, exc_bind_err]
    split
    · exact Or.inr (Or.inr rfl)
    · exact Or.inl rfl
  case arr xs =>
    simp only [vfCountry, jsonContains, jsonGetItem_arr,
      exc_pure, exc_bind_ok, exc_bind_err]
    split
    · exact Or.inr (Or.inr rfl)
    · exact Or.inl rfl

theorem vfBlockStr_pass {kvs : List (String × Json)} {field s : String}
    {core : List Char → Bool} {msg : String}
    {k : Except PyExc (Bool × Option String)}
    (hL : kvs.lookup field = some (.str s))
    (hm : reMatchDollar core s = true) :
    vfBlockStr (.obj kvs) field core msg k = k := by
  simp [vfBlockStr, jsonContains, jsonGetItem, asString, hL, hm,
    exc_pure, exc_bind_ok, exc_bind_err]

theorem validate_format_fail_msg {data : Json} {m : Option String}
    (h : validate_format data = .ok (false, m)) :
    m = some ssnMsg ∨ m = some dobMsg ∨ m = some stateMsg ∨
      m = some countryMsg := by
  unfold validate_format at h
  rcases vfBlockStr_cases data "document_ssn" (digitsN 9) ssnMsg _
    with h1 | h1 | h1
  · rw [h1] at h
    rcases vfBlockStr_cases data "birth_date" dobCore dobMsg _
      with h2 | h2 | h2
    · rw [h2] at h
      rcases vfBlockStr_cases data "address_state" stateCore stateMsg _
        with h3 | h3 | h3
      · rw [h3] at h
        rcases vfCountry_cases data with h4 | h4 | h4
        · rw [h4] at h; simp at h
        · rw [h4] at h
          simp only [Except.ok.injEq, Prod.mk.injEq] at h
          exact Or.inr (Or.inr (Or.inr h.2.symm))
        · rw [h4] at h; simp at h
      · rw [h3] at h
        simp only [Except.ok.injEq, Prod.mk.injEq] at h
        exact Or.inr (Or.inr (Or.inl h.2.symm))
      · rw [h3] at h; simp at h
    · rw [h2] at h
      simp only [Except.ok.injEq, Prod.mk.injEq] at h
      exact Or.inr (Or.inl h.2.symm)
    · rw [h2] at h; simp at h
  · rw [h1] at h
    simp only [Except.ok.injEq, Prod.mk.injEq] at h
    exact Or.inl h.2.symm
  · rw [h1] at h; simp at h

theorem validate_format_ssn_pass {kvs : List (String × Json)} {ssn : String}
    {m : Option String}
    (hL : kvs.lookup "document_ssn" = some (.str ssn))
    (hm : reMatchDollar (digitsN 9) ssn = true)
    (h : validate_format (.obj kvs) = .ok (false, m)) :
    m = some dobMsg ∨ m = some stateMsg ∨ m = some countryMsg := by
  unfold validate_format at h
  rw [vfBlockStr_pass hL hm] at h
  rcases vfBlockStr_cases (Json.obj kvs) "birth_date" dobCore dobMsg _
    with h2 | h2 | h2
  · rw [h2] at h
    rcases vfBlockStr_cases (Json.obj kvs) "address_state" stateCore stateMsg _
      with h3 | h3 | h3
    · rw [h3] at h
      rcases vfCountry_cases (Json.obj kvs) with h4 | h4 | h4
      · rw [h4] at h; simp at h
      · rw [h4] at h
        simp only [Except.ok.injEq, Prod.mk.injEq] at h
        exact Or.inr (Or.inr h.2.symm)
      · rw [h4] at h; simp at h
    · rw [h3] at h
      simp only [Except.ok.injEq, Prod.mk.injEq] at h
      exact Or.inr (Or.inl h.2.symm)
    · rw [h3] at h; simp at h
  · rw [h2] at h
    simp only [Except.ok.injEq, Prod.mk.injEq] at h
    exact Or.inl h.2.symm
  · rw [h2] at h; simp at h

theorem checkFormat_some {data : Json} {r : Resp}
    (h : checkFormat data = .ok (some r)) :
    r = ⟨400, errObj ssnMsg⟩ ∨ r = ⟨400, errObj dobMsg⟩ ∨
      r = ⟨400, errObj stateMsg⟩ ∨ r = ⟨400, errObj countryMsg⟩ := by
  cases hv : validate_format data with
  | error e =>
      unfold checkFormat at h
      rw [hv, exc_bind_err] at h
      exact absurd h (by simp)
  | ok p =>
      obtain ⟨b, m⟩ := p
      cases b with
      | true =>
          unfold checkFormat at h
          rw [hv, exc_bind_ok] at h
          simp [exc_pure] at h
      | false =>
          unfold checkFormat at h
          rw [hv, exc_bind_ok] at h
          rcases validate_format_fail_msg hv with hm | hm | hm | hm <;>
            subst hm <;>
              simp only [exc_pure, Except.ok.injEq, Option.some.injEq] at h <;>
                simp [← h, errObj]

theorem checkFormat_ssn_pass {kvs : List (String × Json)} {ssn : String}
    {r : Resp}
    (hL : kvs.lookup "document_ssn" = some (.str ssn))
    (hm : reMatchDollar (digitsN 9) ssn = true)
    (h : checkFormat (.obj kvs) = .ok (some r)) :
    r = ⟨400, errObj dobMsg⟩ ∨ r = ⟨400, errObj stateMsg⟩ ∨
      r = ⟨400, errObj countryMsg⟩ := by
  cases hv : validate_format (.obj kvs) with
  | error e =>
      unfold checkFormat at h
      rw [hv, exc_bind_err] at h
      exact absurd h (by simp)
  | ok p =>
      obtain ⟨b, m⟩ := p
      cases b with
      | true =>
          unfold checkFormat at h
          rw [hv, exc_bind_ok] at h
          simp [exc_pure] at h
      | false =>
          unfold checkFormat at h
          rw [hv, exc_bind_ok] at h
          rcases validate_format_ssn_pass hL hm hv with h2 | h2 | h2 <;>
            subst h2 <;>
              simp only [exc_pure, Except.ok.injEq, Option.some.injEq] at h <;>
                simp [← h, errObj]

theorem handleExc_ne {e : PyExc} {m : String}
    (hm7 : m ≠ "Invalid data format") :
    handleExc e ≠ ⟨400, errObj m⟩ := by
  rcases handleExc_shape e with he | he | he | he <;> rw [he] <;> intro heq
  · have hb := congrArg Resp.body heq
    simp [errObj] at hb
    exact hm7 hb.symm
  · have hs := congrArg Resp.status heq
    simp at hs
  · have hs := congrArg Resp.status heq
    simp at hs
  · have hs := congrArg Resp.status heq
    simp at hs

theorem runProvider_ne {provs : List ProviderResult} {m : String}
    (hm7 : m ≠ "Invalid data format") (hm8 : m ≠ "Alloy API error") :
    runProvider provs ≠ ⟨400, errObj m⟩ := by
  rcases runProvider_shape provs with ⟨s, hr⟩ | ⟨o, t, hr⟩ | ⟨e, hr⟩ <;> rw [hr]
  · intro heq
    have hb := congrArg Resp.body heq
    simp [errObj] at hb
    exact hm8 hb.symm
  · intro heq
    have hs := congrArg Resp.status heq
    simp at hs
  · exact handleExc_ne hm7

theorem submit_tail3_ne {today : Date} {kvs : List (String × Json)}
    {provs : List ProviderResult} {m : String}
    (hpres : checkPresenceAux (.obj kvs) requiredFields = .ok none)
    (hem : checkEmail (.obj kvs) = .ok none)
    (hph : checkPhone (.obj kvs) = .ok none)
    (hm1 : m ≠ "Must be at least 18 years old")
    (hm2 : m ≠ "Postal code must be 5 digits")
    (hm3 : m ≠ ssnMsg) (hm4 : m ≠ dobMsg) (hm5 : m ≠ stateMsg)
    (hm6 : m ≠ countryMsg) (hm7 : m ≠ "Invalid data format")
    (hm8 : m ≠ "Alloy API error") :
    submit_app today (.parsed (.obj kvs)) provs ≠ ⟨400, errObj m⟩ := by
  have hva0 : validateAll today (.obj kvs) =
      seqCheck (checkBirth today (.obj kvs))
        (seqCheck (checkPostal (.obj kvs)) (checkFormat (.obj kvs))) := by
    unfold validateAll
    rw [seqCheck_ok_none hpres, seqCheck_ok_none hem, seqCheck_ok_none hph]
  cases hb : checkBirth today (.obj kvs) with
  | error e =>
      rw [submit_of_val_err (hva0.trans (seqCheck_err hb))]
      exact handleExc_ne hm7
  | ok ob =>
      cases ob with
      | some r =>
          rw [submit_of_val_some (hva0.trans (seqCheck_ok_some hb)),
            checkBirth_some hb]
          intro heq
          have hbq := congrArg Resp.body heq
          simp [errObj] at hbq
          exact hm1 hbq.symm
      | none =>
          have hva1 : validateAll today (.obj kvs) =
              seqCheck (checkPostal (.obj kvs)) (checkFormat (.obj kvs)) :=
            hva0.trans (seqCheck_ok_none hb)
          cases hp : checkPostal (.obj kvs) with
          | error e =>
              rw [submit_of_val_err (hva1.trans (seqCheck_err hp))]
              exact handleExc_ne hm7
          | ok op =>
              cases op with
              | some r =>
                  rw [submit_of_val_some (hva1.trans (seqCheck_ok_some hp)),
                    checkPostal_some hp]
                  intro heq
                  have hbq := congrArg Resp.body heq
                  simp [errObj] at hbq
                  exact hm2 hbq.symm
              | none =>
                  have hva2 : validateAll today (.obj kvs) =
                      checkFormat (.obj kvs) :=
                    hva1.trans (seqCheck_ok_none hp)
                  cases hf : checkFormat (.obj kvs) with
                  | error e =>
                      rw [submit_of_val_err (hva2.trans hf)]
                      exact handleExc_ne hm7
                  | ok of =>
                      cases of with
                      | some r =>
                          rcases checkFormat_some hf with hr | hr | hr | hr <;>
                            rw [submit_of_val_some (hva2.trans hf), hr] <;>
                              intro heq <;>
                                (have hbq := congrArg Resp.body heq;
                                  simp [errObj] at hbq)
                          · exact hm3 hbq.symm
                          · exact hm4 hbq.symm
                          · exact hm5 hbq.symm
                          · exact hm6 hbq.symm
                      | none =>
                          rw [submit_of_val_none (hva2.trans hf)]
                          exact runProvider_ne hm7 hm8

theorem submit_fmt_tail_ne {today : Date} {kvs : List (String × Json)}
    {provs : List ProviderResult} {ssn m : String}
    (hpres : checkPresenceAux (.obj kvs) requiredFields = .ok none)
    (hem : checkEmail (.obj kvs) = .ok none)
    (hph : checkPhone (.obj kvs) = .ok none)
    (hbi : checkBirth today (.obj kvs) = .ok none)
    (hpo : checkPostal (.obj kvs) = .ok none)
    (hL : kvs.lookup "document_ssn" = some (.str ssn))
    (hmatch : reMatchDollar (digitsN 9) ssn = true)
    (hm4 : m ≠ dobMsg) (hm5 : m ≠ stateMsg) (hm6 : m ≠ countryMsg)
    (hm7 : m ≠ "Invalid data format") (hm8 : m ≠ "Alloy API error") :
    submit_app today (.parsed (.obj kvs)) provs ≠ ⟨400, errObj m⟩ := by
  have hva2 : validateAll today (.obj kvs) = checkFormat (.obj kvs) := by
    unfold validateAll
    rw [seqCheck_ok_none hpres, seqCheck_ok_none hem, seqCheck_ok_none hph,
      seqCheck_ok_none hbi, seqCheck_ok_none hpo]
  cases hf : checkFormat (.obj kvs) with
  | error e =>
      rw [submit_of_val_err (hva2.trans hf)]
      exact handleExc_ne hm7
  | ok of =>
      cases of with
      | some r =>
          rcases checkFormat_ssn_pass hL hmatch hf with hr | hr | hr <;>
            rw [submit_of_val_some (hva2.trans hf), hr] <;>
              intro heq <;>
                (have hbq := congrArg Resp.body heq;
                  simp [errObj] at hbq)
          · exact hm4 hbq.symm
          · exact hm5 hbq.symm
          · exact hm6 hbq.symm
      | none =>
          rw [submit_of_val_none (hva2.trans hf)]
          exact runProvider_ne hm7 hm8

example : checkPresenceAux dataOK requiredFields = .ok none := by rfl

example : checkEmail dataOK = .ok none := by rfl

example : checkPhone dataOK = .ok none := by rfl

example : checkBirth today0 dataOK = .ok none := by rfl

example : checkPostal dataOK = .ok none := by rfl

example : validate_format dataOK = .ok (true, none) := by rfl

example : validateAll today0 dataOK = .ok none := by rfl

example : submit_app today0 (.parsed dataOK) [provOK] =
    ⟨200, .obj [("outcome", .str "Approved"),
                ("evaluation_token", .str "abc123")]⟩ := by rfl

example : strptimeYMD "1990-1-05" = .ok ⟨1990, 1, 5⟩ := by rfl

example : strptimeYMD "1990-13-05" = .error .valueError := by rfl

example : strptimeYMD "2001-02-29" = .error .valueError := by rfl

example : strptimeYMD "2000-02-29" = .ok ⟨2000, 2, 29⟩ := by rfl

example : reMatchDollar (digitsN 9) "123456789\n" = true := by rfl

example : reMatchDollar (digitsN 9) "123-45-6789" = false := by rfl

example : reMatchDollar emailCore "jane@example.com" = true := by rfl

example : reMatchDollar emailCore "jane@examplecom" = false := by rfl

example : reMatchDollar emailCore "@example.com" = false := by rfl

theorem jsonGetItem_error {j : Json} {k : String} {e : PyExc}
    (h : jsonGetItem j k = .error e) : e = .keyError ∨ e = .typeError := by
  cases j
  case obj kvs =>
    cases hL : kvs.lookup k with
    | some v => simp [jsonGetItem, hL] at h
    | none =>
        simp [jsonGetItem, hL] at h
        exact Or.inl h.symm
  case null => rw [jsonGetItem_null] at h; injection h with h2; exact Or.inr h2.symm
  case bool b => rw [jsonGetItem_bool] at h; injection h with h2; exact Or.inr h2.symm
  case num n => rw [jsonGetItem_num] at h; injection h with h2; exact Or.inr h2.symm
  case str s => rw [jsonGetItem_str] at h; injection h with h2; exact Or.inr h2.symm
  case arr xs => rw [jsonGetItem_arr] at h; injection h with h2; exact Or.inr h2.symm

/-- C2: for every submission that passes validation the handler maps
provider-call failures exactly as follows, with no retry: a provider
response with a status other than 201 yields that same status with body
`{"error": "Alloy API error"}`; a connection failure yields 503
`{"error": "Unable to connect to verification service"}`; a timeout yields
504 `{"error": "Request timed out. Please try again."}`; and the response
never depends on any provider result beyond the single call made. -/
theorem submit_provider_failure_mapping (today : Date) (data : Json)
    (p : ProviderResult) (rest rest2 : List ProviderResult)
    (hv : validateAll today data = .ok none) :
    (∀ s b, p = .response s b → s ≠ 201 →
      submit_app today (.parsed data) (p :: rest) =
        ⟨s, errObj "Alloy API error"⟩) ∧
    (p = .connectionError →
      submit_app today (.parsed data) (p :: rest) =
        ⟨503, errObj "Unable to connect to verification service"⟩) ∧
    (p = .timeoutError →
      submit_app today (.parsed data) (p :: rest) =
        ⟨504, errObj "Request timed out. Please try again."⟩) ∧
    submit_app today (.parsed data) (p :: rest) =
      submit_app today (.parsed data) (p :: rest2) := by
  refine ⟨?_, ?_, ?_, ?_⟩
  · rintro s b rfl hs
    rw [submit_of_val_none hv]
    simp [runProvider, providerStage, callProvider, hs,
      exc_pure, exc_bind_ok, exc_bind_err]
  · rintro rfl
    rw [submit_of_val_none hv]
    rfl
  · rintro rfl
    rw [submit_of_val_none hv]
    rfl
  · rw [submit_of_val_none hv, submit_of_val_none hv]
    cases p <;> rfl

/-- Witness for C2 at a concrete valid submission: a 403 provider response,
a connection failure and a timeout are mapped to 403/503/504 with the stated
bodies. -/
theorem submit_provider_failure_mapping_witness :
    validateAll today0 dataOK = .ok none ∧
    submit_app today0 (.parsed dataOK) [.response 403 none] =
      ⟨403, errObj "Alloy API error"⟩ ∧
    submit_app today0 (.parsed dataOK) [.connectionError] =
      ⟨503, errObj "Unable to connect to verification service"⟩ ∧
    submit_app today0 (.parsed dataOK) [.timeoutError] =
      ⟨504, errObj "Request timed out. Please try again."⟩ :=
  ⟨by rfl,
   (submit_provider_failure_mapping today0 dataOK (.response 403 none) [] []
      (by rfl)).1 403 none rfl (by decide),
   (submit_provider_failure_mapping today0 dataOK .connectionError [] []
      (by rfl)).2.1 rfl,
   (submit_provider_failure_mapping today0 dataOK .timeoutError [] []
      (by rfl)).2.2.1 rfl⟩

/-- C10: for every submission that passes validation, a provider 201
response whose JSON body has no outcome under a `summary` key makes the
lookup `alloy_response["summary"]["outcome"]` raise, and the handler answers
500 `{"error": "An unexpected error occurred"}`. -/
theorem submit_missing_outcome_500 (today : Date) (data : Json) (j : Json)
    (rest : List ProviderResult) (e : PyExc)
    (hv : validateAll today data = .ok none)
    (hout : (jsonGetItem j "summary" >>= fun sm => jsonGetItem sm "outcome") =
      .error e) :
    submit_app today (.parsed data) (.response 201 (some j) :: rest) =
      ⟨500, errObj "An unexpected error occurred"⟩ := by
  rw [submit_of_val_none hv]
  cases hsum : jsonGetItem j "summary" with
  | error e2 =>
      rw [hsum, exc_bind_err] at hout
      injection hout with he2
      subst he2
      rcases jsonGetItem_error hsum with hk | hk <;>
        subst hk <;>
          simp [runProvider, providerStage, callProvider, hsum, handleExc,
            exc_pure, exc_bind_ok, exc_bind_err]
  | ok sm =>
      rw [hsum, exc_bind_ok] at hout
      rcases jsonGetItem_error hout with hk | hk <;>
        subst hk <;>
          simp [runProvider, providerStage, callProvider, hsum, hout,
            handleExc, exc_pure, exc_bind_ok, exc_bind_err]

/-- Witness for C10: a 201 body `{}` (no summary at all) and a 201 body
`{"summary": {}}` (summary without outcome) both produce the generic 500. -/
theorem submit_missing_outcome_500_witness :
    validateAll today0 dataOK = .ok none ∧
    (jsonGetItem (Json.obj []) "summary" >>=
      fun sm => jsonGetItem sm "outcome") = .error .keyError ∧
    submit_app today0 (.parsed dataOK) [.response 201 (some (.obj []))] =
      ⟨500, errObj "An unexpected error occurred"⟩ ∧
    submit_app today0 (.parsed dataOK)
        [.response 201 (some (.obj [("summary", .obj [])]))] =
      ⟨500, errObj "An unexpected error occurred"⟩ :=
  ⟨by rfl, by rfl,
   submit_missing_outcome_500 today0 dataOK (.obj []) [] .keyError
     (by rfl) (by rfl),
   submit_missing_outcome_500 today0 dataOK (.obj [("summary", .obj [])]) []
     .keyError (by rfl) (by rfl)⟩

/-- C4 (code bug evidence): a request whose body is absent or unparseable
makes `request.get_json()` raise a werkzeug `BadRequest`/
`UnsupportedMediaType`, which is caught by the final generic handler: the
response is 500 `{"error": "An unexpected error occurred"}`, not the 400
the spec promises. -/
theorem submit_malformed_body_returns_500 :
    submit_app today0 .malformed [] =
      ⟨500, errObj "An unexpected error occurred"⟩ ∧
    (submit_app today0 .malformed []).status ≠ 400 :=
  ⟨rfl, by decide⟩

/-- C1 counterexample: on a fully valid submission and a provider 201 body
`{"summary": {"outcome": "Approved"}}` without an evaluation token, the 200
response body still carries the `evaluation_token` key, mapped to JSON null
(`dict.get` returns `None`, which `jsonify` serializes as `null`): the key
is not absent as the claim states. -/
theorem submit_token_omitted_null_key :
    submit_app today0 (.parsed dataOK)
        [.response 201 (some (.obj
          [("summary", .obj [("outcome", .str "Approved")])]))] =
      ⟨200, .obj [("outcome", .str "Approved"),
                  ("evaluation_token", .null)]⟩ ∧
    ([("outcome", Json.str "Approved"),
      ("evaluation_token", Json.null)].lookup "evaluation_token") =
      some Json.null :=
  ⟨rfl, rfl⟩

/-- C1 amended: for every submission passing validation and a provider 201
response whose body holds `summary.outcome`, the handler responds 200 with
`{"outcome": <label>, "evaluation_token": <token>}`; when the provider body
omits `evaluation_token`, the key is present in the 200 body with value
JSON null (rather than absent). -/
theorem submit_success_mapping (today : Date) (data : Json)
    (js : List (String × Json)) (sm o : Json) (rest : List ProviderResult)
    (hv : validateAll today data = .ok none)
    (hs : js.lookup "summary" = some sm)
    (ho : jsonGetItem sm "outcome" = .ok o) :
    (∀ t, js.lookup "evaluation_token" = some t →
      submit_app today (.parsed data)
          (.response 201 (some (.obj js)) :: rest) =
        ⟨200, .obj [("outcome", o), ("evaluation_token", t)]⟩) ∧
    (js.lookup "evaluation_token" = none →
      submit_app today (.parsed data)
          (.response 201 (some (.obj js)) :: rest) =
        ⟨200, .obj [("outcome", o), ("evaluation_token", .null)]⟩) := by
  have hsum : jsonGetItem (.obj js) "summary" = .ok sm := by
    simp [jsonGetItem, hs]
  constructor
  · intro t ht
    rw [submit_of_val_none hv]
    simp [runProvider, providerStage, callProvider, dictGet,
      hsum, ho, ht, exc_pure, exc_bind_ok, exc_bind_err]
  · intro ht
    rw [submit_of_val_none hv]
    simp [runProvider, providerStage, callProvider, dictGet,
      hsum, ho, ht, exc_pure, exc_bind_ok, exc_bind_err]

/-- Witness for C1 (amended) on the concrete valid submission: with both
outcome and token present the response is
`{"outcome": "Approved", "evaluation_token": "abc123"}`; with the token
omitted the key is present and null. -/
theorem submit_success_mapping_witness :
    validateAll today0 dataOK = .ok none ∧
    submit_app today0 (.parsed dataOK) [provOK] =
      ⟨200, .obj [("outcome", .str "Approved"),
                  ("evaluation_token", .str "abc123")]⟩ ∧
    submit_app today0 (.parsed dataOK)
        [.response 201 (some (.obj
          [("summary", .obj [("outcome", .str "Approved")])]))] =
      ⟨200, .obj [("outcome", .str "Approved"),
                  ("evaluation_token", .null)]⟩ :=
  ⟨by rfl,
   (submit_success_mapping today0 dataOK
      [("summary", .obj [("outcome", .str "Approved")]),
       ("evaluation_token", .str "abc123")]
      (.obj [("outcome", .str "Approved")]) (.str "Approved") []
      (by rfl) (by rfl) (by rfl)).1 (.str "abc123") (by rfl),
   (submit_success_mapping today0 dataOK
      [("summary", .obj [("outcome", .str "Approved")])]
      (.obj [("outcome", .str "Approved")]) (.str "Approved") []
      (by rfl) (by rfl) (by rfl)).2 (by rfl)⟩

theorem find?_ext {α : Type} (p q : α → Bool) (l : List α)
    (h : ∀ x, p x = q x) : l.find? p = l.find? q := by
  rw [show p = q from funext h]

theorem stringValued_lookup :
    ∀ {kvs : List (String × Json)}, stringValued kvs = true →
      ∀ {f : String} {v : Json}, kvs.lookup f = some v →
        ∃ s, v = Json.str s := by
  intro kvs
  induction kvs with
  | nil =>
      intro _ f v hv
      simp [List.lookup] at hv
  | cons p tl ih =>
      obtain ⟨k0, v0⟩ := p
      intro h f v hv
      rw [stringValued, List.all_cons, Bool.and_eq_true] at h
      cases hk : (f == k0) with
      | true =>
          simp [List.lookup, hk] at hv
          subst hv
          cases v0 <;> simp [stringValued] at h
          exact ⟨_, rfl⟩
      | false =>
          simp [List.lookup, hk] at hv
          exact ih h.2 hv

theorem vfBlockStr_fail {kvs : List (String × Json)} {field s : String}
    {core : List Char → Bool} {msg : String}
    {k : Except PyExc (Bool × Option String)}
    (hL : kvs.lookup field = some (.str s))
    (hm : reMatchDollar core s = false) :
    vfBlockStr (.obj kvs) field core msg k = .ok (false, some msg) := by
  simp [vfBlockStr, jsonContains, jsonGetItem, asString, hL, hm,
    exc_pure, exc_bind_ok, exc_bind_err]

theorem firstMissingOrEmpty_eq {kvs : List (String × Json)}
    (hsv : stringValued kvs = true) :
    firstMissingOrEmpty kvs = requiredFields.find? (presMiss kvs) := by
  unfold firstMissingOrEmpty
  apply find?_ext
  intro g
  unfold presMiss
  cases hL : kvs.lookup g with
  | none => rfl
  | some v =>
      obtain ⟨s, rfl⟩ := stringValued_lookup hsv hL
      simp [truthy, bne]

/-- C3: for every request whose JSON-object body (with string field values,
the shape of a Submission) lacks one of the eleven required fields or maps
it to the empty string, the response is a 400 naming the display label of
the first such field in `required_fields` order; `address_line_2` is not in
the required set. -/
theorem submit_missing_required_field (today : Date)
    (kvs : List (String × Json)) (provs : List ProviderResult)
    (hsv : stringValued kvs = true) :
    (∀ f, firstMissingOrEmpty kvs = some f →
      submit_app today (.parsed (.obj kvs)) provs =
        ⟨400, errObj ("Missing required field: " ++ fieldLabel f)⟩) ∧
    "address_line_2" ∉ requiredFields := by
  constructor
  · intro f hf
    rw [firstMissingOrEmpty_eq hsv] at hf
    have hpres : checkPresenceAux (.obj kvs) requiredFields =
        .ok (some (missingResp f)) := by
      rw [checkPresenceAux_obj kvs requiredFields, hf]
      rfl
    have hva : validateAll today (.obj kvs) = .ok (some (missingResp f)) := by
      unfold validateAll
      exact seqCheck_ok_some hpres
    simpa [missingResp] using submit_of_val_some hva
  · decide

/-- Witness for C3: with the email address absent the first missing field is
`email_address`, whose display label is "Email Address", and the response is
the corresponding 400. -/
theorem submit_missing_required_field_witness :
    stringValued kvsNoEmail = true ∧
    firstMissingOrEmpty kvsNoEmail = some "email_address" ∧
    fieldLabel "email_address" = "Email Address" ∧
    submit_app today0 (.parsed (.obj kvsNoEmail)) [] =
      ⟨400, errObj ("Missing required field: " ++ fieldLabel "email_address")⟩ :=
  ⟨by rfl, by rfl, by rfl,
   (submit_missing_required_field today0 kvsNoEmail [] (by rfl)).1
     "email_address" (by rfl)⟩

/-- C8: for every submission passing the presence and email checks whose
phone number is a string, the handler strips all non-digit characters and
rejects with 400 "Phone number must be 10 digits" iff the remaining digit
count differs from ten; "(555) 123-4567" normalizes to ten digits and
"555-123" does not. -/
theorem submit_phone_check (today : Date) (kvs : List (String × Json))
    (provs : List ProviderResult) (ph : String)
    (hpres : checkPresenceAux (.obj kvs) requiredFields = .ok none)
    (hem : checkEmail (.obj kvs) = .ok none)
    (hph : kvs.lookup "phone_number" = some (.str ph)) :
    ((ph.toList.filter Char.isDigit).length ≠ 10 →
      submit_app today (.parsed (.obj kvs)) provs =
        ⟨400, errObj "Phone number must be 10 digits"⟩) ∧
    ((ph.toList.filter Char.isDigit).length = 10 →
      submit_app today (.parsed (.obj kvs)) provs ≠
        ⟨400, errObj "Phone number must be 10 digits"⟩) ∧
    (("(555) 123-4567".toList.filter Char.isDigit).length = 10 ∧
      ("555-123".toList.filter Char.isDigit).length ≠ 10) := by
  refine ⟨?_, ?_, by decide, by decide⟩
  · intro hn
    simp only [String.toList] at hn
    have hcp : checkPhone (.obj kvs) =
        .ok (some ⟨400, errObj "Phone number must be 10 digits"⟩) := by
      rw [checkPhone_obj hph]
      simp [hn]
    have hva : validateAll today (.obj kvs) =
        .ok (some ⟨400, errObj "Phone number must be 10 digits"⟩) := by
      unfold validateAll
      rw [seqCheck_ok_none hpres, seqCheck_ok_none hem, seqCheck_ok_some hcp]
    exact submit_of_val_some hva
  · intro hn
    simp only [String.toList] at hn
    have hcp : checkPhone (.obj kvs) = .ok none := by
      rw [checkPhone_obj hph]
      simp [hn]
    exact submit_tail3_ne hpres hem hcp (by decide) (by decide) (by decide)
      (by decide) (by decide) (by decide) (by decide) (by decide)

/-- Witness for C8: the valid submission with phone "555-123" is rejected
with the ten-digit message, and the fully valid submission with phone
"(555) 123-4567" is not. -/
theorem submit_phone_check_witness :
    submit_app today0 (.parsed (.obj kvsShortPhone)) [] =
      ⟨400, errObj "Phone number must be 10 digits"⟩ ∧
    submit_app today0 (.parsed (.obj kvsOK)) [provOK] ≠
      ⟨400, errObj "Phone number must be 10 digits"⟩ :=
  ⟨(submit_phone_check today0 kvsShortPhone [] "555-123"
      (by rfl) (by rfl) (by rfl)).1 (by decide),
   (submit_phone_check today0 kvsOK [provOK] "(555) 123-4567"
      (by rfl) (by rfl) (by rfl)).2.1 (by decide)⟩

/-- C6: for every submission passing the presence, email and phone checks
whose birth date is a string: a value `strptime` cannot parse raises
`ValueError` and yields the 400 format-failure response
("Invalid data format"); a parseable date whose computed age is below 18
yields 400 "Must be at least 18 years old"; a date exactly 18 years back
with today's month and day gives age exactly 18 and is accepted (the
handler proceeds to the provider call when the remaining checks pass). -/
theorem submit_birth_date_check (today : Date) (kvs : List (String × Json))
    (provs : List ProviderResult) (bd : String)
    (hpres : checkPresenceAux (.obj kvs) requiredFields = .ok none)
    (hem : checkEmail (.obj kvs) = .ok none)
    (hph : checkPhone (.obj kvs) = .ok none)
    (hbd : kvs.lookup "birth_date" = some (.str bd)) :
    (strptimeYMD bd = .error .valueError →
      submit_app today (.parsed (.obj kvs)) provs =
        ⟨400, errObj "Invalid data format"⟩) ∧
    (∀ birth, strptimeYMD bd = .ok birth → pyAge today birth < 18 →
      submit_app today (.parsed (.obj kvs)) provs =
        ⟨400, errObj "Must be at least 18 years old"⟩) ∧
    (∀ birth, strptimeYMD bd = .ok birth → birth.year + 18 = today.year →
      birth.month = today.month → birth.day = today.day →
      pyAge today birth = 18 ∧
      (checkPostal (.obj kvs) = .ok none → checkFormat (.obj kvs) = .ok none →
        submit_app today (.parsed (.obj kvs)) provs = runProvider provs)) := by
  have hva0 : validateAll today (.obj kvs) =
      seqCheck (checkBirth today (.obj kvs))
        (seqCheck (checkPostal (.obj kvs)) (checkFormat (.obj kvs))) := by
    unfold validateAll
    rw [seqCheck_ok_none hpres, seqCheck_ok_none hem, seqCheck_ok_none hph]
  refine ⟨?_, ?_, ?_⟩
  · intro hpe
    have hb : checkBirth today (.obj kvs) = .error .valueError := by
      rw [checkBirth_obj hbd, hpe]
    exact (submit_of_val_err (hva0.trans (seqCheck_err hb))).trans rfl
  · intro birth hok hlt
    have hb : checkBirth today (.obj kvs) =
        .ok (some ⟨400, errObj "Must be at least 18 years old"⟩) := by
      rw [checkBirth_obj hbd, hok]
      simp [hlt]
    exact submit_of_val_some (hva0.trans (seqCheck_ok_some hb))
  · intro birth hok hy hm hd
    have hage : pyAge today birth = 18 := by
      unfold pyAge
      rw [hm, hd]
      simp
      omega
    refine ⟨hage, ?_⟩
    intro hpo hfmt
    have hb : checkBirth today (.obj kvs) = .ok none := by
      rw [checkBirth_obj hbd, hok]
      simp [hage]
    exact submit_of_val_none
      (hva0.trans ((seqCheck_ok_none hb).trans
        ((seqCheck_ok_none hpo).trans hfmt)))

/-- Witness for C6: birth date 2010-01-15 gives age 16 on 2026-10-12 and is
rejected as underage; birth date 1990-01-15 parses and passes. -/
theorem submit_birth_date_check_witness :
    strptimeYMD "2010-01-15" = .ok ⟨2010, 1, 15⟩ ∧
    pyAge today0 ⟨2010, 1, 15⟩ < 18 ∧
    submit_app today0 (.parsed (.obj kvsYoung)) [] =
      ⟨400, errObj "Must be at least 18 years old"⟩ :=
  ⟨by rfl, by decide,
   (submit_birth_date_check today0 kvsYoung [] "2010-01-15"
      (by rfl) (by rfl) (by rfl) (by rfl)).2.1 ⟨2010, 1, 15⟩
     (by rfl) (by decide)⟩

/-- C7 counterexample: the SSN "123456789\n" is not exactly nine digits,
yet `re.match(r"^\d{9}$", ...)` accepts it because the dollar anchor also
matches just before a trailing newline; the otherwise fully valid
submission with this SSN is forwarded to the provider and answered 200,
not rejected with the claimed 400. -/
theorem submit_ssn_newline_counterexample :
    digitsN 9 ("123456789\n".toList) = false ∧
    reMatchDollar (digitsN 9) "123456789\n" = true ∧
    submit_app today0 (.parsed dataSsnNewline) [provOK] =
      ⟨200, .obj [("outcome", .str "Approved"),
                  ("evaluation_token", .str "abc123")]⟩ ∧
    submit_app today0 (.parsed dataSsnNewline) [provOK] ≠
      ⟨400, errObj ssnMsg⟩ :=
  ⟨by decide, by decide, by rfl,
   fun h => absurd (congrArg Resp.status h) (by decide)⟩

/-- C7 amended: for every submission passing the earlier checks whose SSN is
a string, the handler rejects with 400 "SSN must be exactly 9 digits with no
dashes" iff the SSN fails Python's anchored match of `\d{9}` — i.e. it is
neither exactly nine digits nor nine digits followed by a single trailing
newline; every nine-digit SSN passes the check. -/
theorem submit_ssn_check (today : Date) (kvs : List (String × Json))
    (provs : List ProviderResult) (ssn : String)
    (hpres : checkPresenceAux (.obj kvs) requiredFields = .ok none)
    (hem : checkEmail (.obj kvs) = .ok none)
    (hph : checkPhone (.obj kvs) = .ok none)
    (hbi : checkBirth today (.obj kvs) = .ok none)
    (hpo : checkPostal (.obj kvs) = .ok none)
    (hL : kvs.lookup "document_ssn" = some (.str ssn)) :
    (reMatchDollar (digitsN 9) ssn = false →
      submit_app today (.parsed (.obj kvs)) provs = ⟨400, errObj ssnMsg⟩) ∧
    (reMatchDollar (digitsN 9) ssn = true →
      submit_app today (.parsed (.obj kvs)) provs ≠ ⟨400, errObj ssnMsg⟩) ∧
    (∀ s : String, digitsN 9 s.toList = true →
      reMatchDollar (digitsN 9) s = true) := by
  refine ⟨?_, ?_, ?_⟩
  · intro hm
    have hvf : validate_format (.obj kvs) = .ok (false, some ssnMsg) := by
      unfold validate_format
      exact vfBlockStr_fail hL hm
    have hfmt : checkFormat (.obj kvs) = .ok (some ⟨400, errObj ssnMsg⟩) := by
      unfold checkFormat
      rw [hvf, exc_bind_ok]
      rfl
    have hva : validateAll today (.obj kvs) =
        .ok (some ⟨400, errObj ssnMsg⟩) := by
      unfold validateAll
      rw [seqCheck_ok_none hpres, seqCheck_ok_none hem, seqCheck_ok_none hph,
        seqCheck_ok_none hbi, seqCheck_ok_none hpo]
      exact hfmt
    exact submit_of_val_some hva
  · intro hm
    exact submit_fmt_tail_ne hpres hem hph hbi hpo hL hm (by decide)
      (by decide) (by decide) (by decide) (by decide)
  · intro s hs
    unfold reMatchDollar
    rw [hs]
    rfl

/-- Witness for C7 (amended): the dashed SSN "123-45-6789" fails the match
and is rejected with the SSN message; the nine-digit SSN of the valid
submission passes. -/
theorem submit_ssn_check_witness :
    submit_app today0 (.parsed (.obj kvsSsnDashes)) [] =
      ⟨400, errObj ssnMsg⟩ ∧
    submit_app today0 (.parsed (.obj kvsOK)) [provOK] ≠
      ⟨400, errObj ssnMsg⟩ :=
  ⟨(submit_ssn_check today0 kvsSsnDashes [] "123-45-6789"
      (by rfl) (by rfl) (by rfl) (by rfl) (by rfl) (by rfl)).1 (by decide),
   (submit_ssn_check today0 kvsOK [provOK] "123456789"
      (by rfl) (by rfl) (by rfl) (by rfl) (by rfl) (by rfl)).2.1 (by decide)⟩

theorem strptimeYMD_error {s : String} {e : PyExc}
    (h : strptimeYMD s = .error e) : e = .valueError := by
  unfold strptimeYMD at h
  repeat' split at h
  all_goals try (dsimp only at h)
  all_goals try (split at h)
  all_goals
    first
      | (injection h with h2; exact h2.symm)
      | exact Except.noConfusion h

/-- C5 counterexample: the submission `kvsOrder` violates, among the eight
rules listed by the claim, only the state rule ("ny"): its birth date
"1990-1-05" parses under `strptime` (one-digit month) with age over 18, and
every other listed check passes.  The claim therefore predicts the state
message, but the handler reports the birth-date shape failure, which
`validate_format` checks between SSN and state. -/
theorem submit_check_order_counterexample :
    strptimeYMD "1990-1-05" = .ok ⟨1990, 1, 5⟩ ∧
    (18 : Int) ≤ pyAge today0 ⟨1990, 1, 5⟩ ∧
    reMatchDollar stateCore "ny" = false ∧
    submit_app today0 (.parsed (.obj kvsOrder)) [] = ⟨400, errObj dobMsg⟩ ∧
    submit_app today0 (.parsed (.obj kvsOrder)) [] ≠
      ⟨400, errObj stateMsg⟩ := by
  refine ⟨by rfl, by decide, by decide, by rfl, ?_⟩
  intro h
  have hb : errObj dobMsg = errObj stateMsg :=
    (show (submit_app today0 (.parsed (.obj kvsOrder)) []).body =
        errObj dobMsg from rfl).symm.trans (congrArg Resp.body h)
  simp [errObj, dobMsg, stateMsg] at hb

/-- C5 amended: on string-valued JSON-object submissions the handler is
exactly the short-circuiting cascade presence, email, phone, birth date
(strptime parse, then age), postal code, SSN, birth-date strict shape,
state, country code — that is, the order the claim states, amended with the
strict `YYYY-MM-DD` shape re-check running inside `validate_format` between
the SSN and state checks; the first violated rule in that order determines
the response, with no aggregation. -/
theorem submit_check_order (today : Date) (kvs : List (String × Json))
    (provs : List ProviderResult) (hsv : stringValued kvs = true) :
    submit_app today (.parsed (.obj kvs)) provs =
      specCascade today kvs provs := by
  cases hfm : firstMissingOrEmpty kvs with
  | some f =>
      have hf2 : requiredFields.find? (presMiss kvs) = some f := by
        rw [← firstMissingOrEmpty_eq hsv]
        exact hfm
      have hpres : checkPresenceAux (.obj kvs) requiredFields =
          .ok (some (missingResp f)) := by
        rw [checkPresenceAux_obj kvs requiredFields, hf2]
        rfl
      have hva : validateAll today (.obj kvs) =
          .ok (some (missingResp f)) := by
        unfold validateAll
        exact seqCheck_ok_some hpres
      rw [submit_of_val_some hva]
      simp [specCascade, hfm, missingResp]
  | none =>
      have hf2 : requiredFields.find? (presMiss kvs) = none := by
        rw [← firstMissingOrEmpty_eq hsv]
        exact hfm
      have hpres : checkPresenceAux (.obj kvs) requiredFields = .ok none := by
        rw [checkPresenceAux_obj kvs requiredFields, hf2]
        rfl
      have hall : ∀ f ∈ requiredFields, presMiss kvs f = false := by
        intro f hfmem
        have hnp := List.find?_eq_none.mp hf2 f hfmem
        simpa using hnp
      have hfield : ∀ f, f ∈ requiredFields →
          ∃ s, kvs.lookup f = some (.str s) := by
        intro f hmem
        have hp := hall f hmem
        unfold presMiss at hp
        cases hL : kvs.lookup f with
        | none => rw [hL] at hp; simp at hp
        | some v =>
            obtain ⟨s, rfl⟩ := stringValued_lookup hsv hL
            exact ⟨s, rfl⟩
      obtain ⟨sE, hE⟩ := hfield "email_address" (by decide)
      obtain ⟨sP, hP⟩ := hfield "phone_number" (by decide)
      obtain ⟨sB, hB⟩ := hfield "birth_date" (by decide)
      obtain ⟨sZ, hZ⟩ := hfield "address_postal_code" (by decide)
      obtain ⟨sS, hS⟩ := hfield "document_ssn" (by decide)
      obtain ⟨sT, hT⟩ := hfield "address_state" (by decide)
      obtain ⟨sC, hC⟩ := hfield "address_country_code" (by decide)
      have hsE : strField kvs "email_address" = sE := by simp [strField, hE]
      have hsP : strField kvs "phone_number" = sP := by simp [strField, hP]
      have hsB : strField kvs "birth_date" = sB := by simp [strField, hB]
      have hsZ : strField kvs "address_postal_code" = sZ := by
        simp [strField, hZ]
      have hsS : strField kvs "document_ssn" = sS := by simp [strField, hS]
      have hsT : strField kvs "address_state" = sT := by simp [strField, hT]
      have hsC : strField kvs "address_country_code" = sC := by
        simp [strField, hC]
      have hva0 : validateAll today (.obj kvs) =
          seqCheck (checkEmail (.obj kvs))
            (seqCheck (checkPhone (.obj kvs))
              (seqCheck (checkBirth today (.obj kvs))
                (seqCheck (checkPostal (.obj kvs))
                  (checkFormat (.obj kvs))))) := by
        unfold validateAll
        rw [seqCheck_ok_none hpres]
      cases hbE : reMatchDollar emailCore sE with
      | false =>
          have hce : checkEmail (.obj kvs) =
              .ok (some ⟨400, errObj "Invalid email format"⟩) := by
            rw [checkEmail_obj hE]
            simp [hbE]
          rw [submit_of_val_some (hva0.trans (seqCheck_ok_some hce))]
          simp [specCascade, hfm, hsE, hbE]
      | true =>
          have hce : checkEmail (.obj kvs) = .ok none := by
            rw [checkEmail_obj hE]
            simp [hbE]
          have hva1 := hva0.trans (seqCheck_ok_none hce)
          by_cases hbP : (sP.toList.filter Char.isDigit).length = 10
          case neg =>
              simp only [String.toList] at hbP
              have hcp : checkPhone (.obj kvs) =
                  .ok (some ⟨400, errObj "Phone number must be 10 digits"⟩) := by
                rw [checkPhone_obj hP]
                simp [hbP]
              rw [submit_of_val_some (hva1.trans (seqCheck_ok_some hcp))]
              simp [specCascade, hfm, hsE, hbE, hsP, hbP]
          case pos =>
              simp only [String.toList] at hbP
              have hcp : checkPhone (.obj kvs) = .ok none := by
                rw [checkPhone_obj hP]
                simp [hbP]
              have hva2 := hva1.trans (seqCheck_ok_none hcp)
              cases hps : strptimeYMD sB with
              | error e =>
                  have he := strptimeYMD_error hps
                  subst he
                  have hcb : checkBirth today (.obj kvs) =
                      .error .valueError := by
                    rw [checkBirth_obj hB, hps]
                  rw [submit_of_val_err (hva2.trans (seqCheck_err hcb))]
                  simp [specCascade, hfm, hsE, hbE, hsP, hbP, hsB, hps,
                    handleExc]
              | ok birth =>
                  by_cases hage : pyAge today birth < 18
                  case pos =>
                      have hcb : checkBirth today (.obj kvs) =
                          .ok (some ⟨400,
                            errObj "Must be at least 18 years old"⟩) := by
                        rw [checkBirth_obj hB, hps]
                        simp [hage]
                      rw [submit_of_val_some
                        (hva2.trans (seqCheck_ok_some hcb))]
                      simp [specCascade, hfm, hsE, hbE, hsP, hbP, hsB, hps,
                        hage]
                  case neg =>
                      have hcb : checkBirth today (.obj kvs) = .ok none := by
                        rw [checkBirth_obj hB, hps]
                        simp [hage]
                      have hva3 := hva2.trans (seqCheck_ok_none hcb)
                      cases hbZ : reMatchDollar (digitsN 5) sZ with
                      | false =>
                          have hcz : checkPostal (.obj kvs) =
                              .ok (some ⟨400,
                                errObj "Postal code must be 5 digits"⟩) := by
                            rw [checkPostal_obj hZ]
                            simp [hbZ]
                          rw [submit_of_val_some
                            (hva3.trans (seqCheck_ok_some hcz))]
                          simp [specCascade, hfm, hsE, hbE, hsP, hbP, hsB,
                            hps, hage, hsZ, hbZ]
                      | true =>
                          have hcz : checkPostal (.obj kvs) = .ok none := by
                            rw [checkPostal_obj hZ]
                            simp [hbZ]
                          have hva4 := hva3.trans (seqCheck_ok_none hcz)
                          have hcf := checkFormat_obj hS hB hT hC
                          cases hbS : reMatchDollar (digitsN 9) sS with
                          | false =>
                              rw [hbS] at hcf
                              simp only [Bool.not_false, if_true] at hcf
                              rw [submit_of_val_some (hva4.trans hcf)]
                              simp [specCascade, hfm, hsE, hbE, hsP, hbP,
                                hsB, hps, hage, hsZ, hbZ, hsS, hbS]
                          | true =>
                              rw [hbS] at hcf
                              simp only [Bool.not_true, if_false] at hcf
                              cases hbD : reMatchDollar dobCore sB with
                              | false =>
                                  rw [hbD] at hcf
                                  simp only [Bool.not_false, if_true] at hcf
                                  rw [submit_of_val_some (hva4.trans hcf)]
                                  simp [specCascade, hfm, hsE, hbE, hsP, hbP,
                                    hsB, hps, hage, hsZ, hbZ, hsS, hbS, hbD]
                              | true =>
                                  rw [hbD] at hcf
                                  simp only [Bool.not_true, if_false] at hcf
                                  cases hbT : reMatchDollar stateCore sT with
                                  | false =>
                                      rw [hbT] at hcf
                                      simp only [Bool.not_false, if_true]
                                        at hcf
                                      rw [submit_of_val_some
                                        (hva4.trans hcf)]
                                      simp [specCascade, hfm, hsE, hbE, hsP,
                                        hbP, hsB, hps, hage, hsZ, hbZ, hsS,
                                        hbS, hbD, hsT, hbT]
                                  | true =>
                                      rw [hbT] at hcf
                                      simp only [Bool.not_true, if_false]
                                        at hcf
                                      cases hbC : (sC == "US") with
                                      | false =>
                                          rw [hbC] at hcf
                                          simp only [Bool.not_false, if_true]
                                            at hcf
                                          rw [submit_of_val_some
                                            (hva4.trans hcf)]
                                          simp [specCascade, hfm, hsE, hbE,
                                            hsP, hbP, hsB, hps, hage, hsZ,
                                            hbZ, hsS, hbS, hbD, hsT, hbT,
                                            hsC, hbC]
                                      | true =>
                                          rw [hbC] at hcf
                                          simp only [Bool.not_true, if_false]
                                            at hcf
                                          rw [submit_of_val_none
                                            (hva4.trans hcf)]
                                          simp [specCascade, hfm, hsE, hbE,
                                            hsP, hbP, hsB, hps, hage, hsZ,
                                            hbZ, hsS, hbS, hbD, hsT, hbT,
                                            hsC, hbC]

/-- Witness for C5 (amended): on the fully valid submission both sides agree
on the provider path, and on `kvsOrder` both sides report the birth-date
shape message. -/
theorem submit_check_order_witness :
    stringValued kvsOK = true ∧
    submit_app today0 (.parsed (.obj kvsOK)) [provOK] =
      specCascade today0 kvsOK [provOK] ∧
    specCascade today0 kvsOrder [] = ⟨400, errObj dobMsg⟩ :=
  ⟨by rfl,
   submit_check_order today0 kvsOK [provOK] (by rfl),
   ((submit_check_order today0 kvsOrder [] (by rfl)).symm.trans (by rfl))⟩

/-- C9 (modelled from the spec, since the admission logic lives in the
flask_limiter library): on the `/submit` route at most five requests per
minute are admitted per client address — the sixth request within one
minute from the same address gets the 429 rate-limit response, whatever its
body or provider script, so before any validation — and a global ceiling of
one hundred admitted requests per hour across all clients also rejects. -/
theorem rate_limit_submit (today : Date) (addr : String)
    (t1 t2 t3 t4 t5 t6 : Nat)
    (b1 b2 b3 b4 b5 b6 : ReqBody)
    (p1 p2 p3 p4 p5 p6 : List ProviderResult)
    (h12 : t1 ≤ t2) (h23 : t2 ≤ t3) (h34 : t3 ≤ t4) (h45 : t4 ≤ t5)
    (h56 : t5 ≤ t6) (hw : t6 < t1 + 60) :
    (processReqs today [] [(addr, t1, b1, p1), (addr, t2, b2, p2),
        (addr, t3, b3, p3), (addr, t4, b4, p4), (addr, t5, b5, p5),
        (addr, t6, b6, p6)]).getLast? = some rateLimitResp ∧
    rateLimitResp.status = 429 ∧
    rateLimitResp.status ≠ 200 ∧
    (∀ (st : List (String × Nat)) (a : String) (t : Nat) (b : ReqBody)
        (p : List ProviderResult),
      100 ≤ st.countP (fun e => decide (t < e.2 + 3600)) →
      rateLimitedRoute today st a t b p = (rateLimitResp, st)) := by
  have hadm : ∀ (st : List (String × Nat)) (a : String) (t : Nat),
      st.length ≤ 4 → rateAdmit st a t = true := by
    intro st a t hlen
    unfold rateAdmit
    have h1 : st.countP (fun e => e.1 == a && decide (t < e.2 + 60)) < 5 :=
      lt_of_le_of_lt (List.countP_le_length _) (by omega)
    have h2 : st.countP (fun e => decide (t < e.2 + 3600)) < 100 :=
      lt_of_le_of_lt (List.countP_le_length _) (by omega)
    simp [h1, h2]
  have l2 : t6 < t2 + 60 := by omega
  have l3 : t6 < t3 + 60 := by omega
  have l4 : t6 < t4 + 60 := by omega
  have l5 : t6 < t5 + 60 := by omega
  have h6 : rateAdmit [(addr, t5), (addr, t4), (addr, t3), (addr, t2),
      (addr, t1)] addr t6 = false := by
    unfold rateAdmit
    have hc : List.countP (fun e => e.1 == addr && decide (t6 < e.2 + 60))
        [(addr, t5), (addr, t4), (addr, t3), (addr, t2), (addr, t1)] = 5 := by
      simp [List.countP_cons, hw, l2, l3, l4, l5]
    rw [hc]
    simp
  refine ⟨?_, rfl, by decide, ?_⟩
  · have s1 := hadm [] addr t1 (by simp)
    have s2 := hadm [(addr, t1)] addr t2 (by simp)
    have s3 := hadm [(addr, t2), (addr, t1)] addr t3 (by simp)
    have s4 := hadm [(addr, t3), (addr, t2), (addr, t1)] addr t4 (by simp)
    have s5 := hadm [(addr, t4), (addr, t3), (addr, t2), (addr, t1)] addr t5
      (by simp)
    simp [processReqs, rateLimitedRoute, s1, s2, s3, s4, s5, h6]
  · intro st a t b p h100
    have hreject : rateAdmit st a t = false := by
      unfold rateAdmit
      have hnot : ¬ (st.countP (fun e => decide (t < e.2 + 3600)) < 100) := by
        omega
      simp [hnot]
    simp [rateLimitedRoute, hreject]

/-- Witness for C9: six simultaneous requests from one address; the sixth
response is the 429 rate-limit response. -/
theorem rate_limit_submit_witness :
    (processReqs today0 [] [("1.2.3.4", 0, .malformed, []),
        ("1.2.3.4", 10, .malformed, []), ("1.2.3.4", 20, .malformed, []),
        ("1.2.3.4", 30, .malformed, []), ("1.2.3.4", 40, .malformed, []),
        ("1.2.3.4", 50, .malformed, [])]).getLast? = some rateLimitResp ∧
    rateLimitResp.status = 429 :=
  ⟨(rate_limit_submit today0 "1.2.3.4" 0 10 20 30 40 50
      .malformed .malformed .malformed .malformed .malformed .malformed
      [] [] [] [] [] []
      (by decide) (by decide) (by decide) (by decide) (by decide)
      (by decide)).1,
   rfl⟩
